import Mathlib

/-!
Verification of `scripts/list_collections.py`.

The script is a linear sequence: read a token file, issue one HTTP GET,
parse the response body as JSON, print a header, print one line per
non-system collection, print a total.  We embed it as a pure function from
a `World` (the outcome of the file read and of the network call) to an
event trace (file opens/closes, HTTP requests, printed lines) together
with a result that is either success or the Python exception the run would
raise.
-/

namespace ListCollections

/-- JSON values, as produced by `response.json()`. -/
inductive Json where
  | null
  | bool (b : Bool)
  | num (n : Int)
  | str (s : String)
  | arr (elems : List Json)
  | obj (fields : List (String × Json))
deriving Repr

/-- Result of a Python subscript `x[key]` with a string key:
either the value, a `KeyError` (dict without the key), or a `TypeError`
(value is not a dict; lists and strings reject string subscripts). -/
inductive Access where
  | found (v : Json)
  | missingKey
  | notSubscriptable
deriving Repr

/-- `data[key]` on a JSON value. -/
def Json.getKey : Json → String → Access
  | .obj fields, key =>
    match fields.lookup key with
    | some v => .found v
    | none => .missingKey
  | _, _ => .notSubscriptable

/-- The exceptions the script can raise, one per failure point:
`open` (OSError), `requests.get` (requests exception), `response.json()`
(JSONDecodeError), `data[...]`/`c[...]` (KeyError / TypeError), and
`.startswith` on a non-string (AttributeError). -/
inductive PyError where
  | fileAccessError
  | networkError
  | jsonDecodeError
  | keyError (key : String)
  | typeError
  | attributeError
deriving Repr, DecidableEq

/-- Observable events of one run, in order. -/
inductive Event where
  | fileOpen (path : String)
  | fileClose (path : String)
  | httpGet (url : String) (authorization : String)
  | printLine (s : String)
deriving Repr, DecidableEq

/-- Outcome of the token-file access at the fixed path: `openFail` means
`open` itself raises (file missing or unopenable, no handle acquired);
`readFail` means the handle was acquired but `f.read()` raises;
`ok content` is a successful read of the whole text. -/
inductive FileOutcome where
  | openFail
  | readFail
  | ok (content : String)
deriving Repr, DecidableEq

/-- Outcome of the HTTP call: `netFail` means `requests.get` raises
(connection refused, DNS failure, ...); `response status body` is a
received response with its status code and the JSON-parse outcome of its
body (`none` when the body is not valid JSON). -/
inductive NetOutcome where
  | netFail
  | response (status : Nat) (body : Option Json)
deriving Repr

/-- The environment one run observes. -/
structure World where
  tokenFile : FileOutcome
  net : NetOutcome
deriving Repr

/-- Python whitespace as stripped by `str.strip()` (ASCII cases). -/
def pyIsSpace (c : Char) : Bool :=
  c = ' ' || c = '\t' || c = '\n' || c = '\x0d' || c = '\x0b' || c = '\x0c'

/-- `s.strip()`: drop leading and trailing whitespace. -/
def pyStrip (s : String) : String :=
  String.mk (((s.toList.dropWhile pyIsSpace).reverse.dropWhile pyIsSpace).reverse)

/-- Python `name.startswith('_')` for the one-character prefix: true iff
the string is nonempty and its first character is the underscore. -/
def startsWithUnderscore (s : String) : Bool :=
  match s.data with
  | [] => false
  | c :: _ => c == '_'

/-- Python `str()` of a JSON value, as interpolated by the f-string.
Scalar cases are exact; container renderings are abbreviated, since their
Python `repr` quoting is never exercised (the script only interpolates the
`name` and `id` fields, and a container there is outside every claim). -/
def pyStr : Json → String
  | .null => "None"
  | .bool true => "True"
  | .bool false => "False"
  | .num n => toString n
  | .str s => s
  | .arr _ => "[...]"
  | .obj _ => "\x7b...\x7d"

/-- The fixed token path of line 6. -/
def TOKEN_PATH : String := "/tmp/pb_token.txt"

/-- The fixed URL of line 11, query string included. -/
def COLLECTIONS_URL : String := "http://localhost:8090/api/collections?perPage=100"

/-- Lines 6-7: `with open('/tmp/pb_token.txt','r') as f: token = f.read().strip()`.
The `with` statement closes the handle whenever it was acquired, also when
`f.read()` raises. -/
def loadToken : FileOutcome → List Event × Except PyError String
  | .openFail => ([], .error .fileAccessError)
  | .readFail => ([.fileOpen TOKEN_PATH, .fileClose TOKEN_PATH], .error .fileAccessError)
  | .ok content => ([.fileOpen TOKEN_PATH, .fileClose TOKEN_PATH], .ok (pyStrip content))

/-- Lines 19-21: the `for c in data['items']` loop body. For each record:
subscript `c['name']`, call `.startswith('_')` (AttributeError unless a
string), and when the name does not start with `_`, subscript `c['id']`
and print `f"  {c['name']}: {c['id']}"`. -/
def printItems : List Json → List Event × Except PyError Unit
  | [] => ([], .ok ())
  | c :: rest =>
    match c.getKey "name" with
    | .missingKey => ([], .error (.keyError "name"))
    | .notSubscriptable => ([], .error .typeError)
    | .found (.str name) =>
      if startsWithUnderscore name then printItems rest
      else
        match c.getKey "id" with
        | .missingKey => ([], .error (.keyError "id"))
        | .notSubscriptable => ([], .error .typeError)
        | .found idVal =>
          (.printLine ("  " ++ name ++ ": " ++ pyStr idVal) :: (printItems rest).1,
           (printItems rest).2)
    | .found _ => ([], .error .attributeError)

/-- Line 23's comprehension: `len([c for c in data['items'] if not c['name'].startswith('_')])`,
evaluated left to right, raising at the first ill-formed record. -/
def countCustom : List Json → Except PyError Nat
  | [] => .ok 0
  | c :: rest =>
    match c.getKey "name" with
    | .missingKey => .error (.keyError "name")
    | .notSubscriptable => .error .typeError
    | .found (.str name) =>
      (countCustom rest).map fun n => if startsWithUnderscore name then n else n + 1
    | .found _ => .error .attributeError

/-- Lines 18-23: print the header, then `data['items']` is subscripted and
iterated (a non-list value of `items` is modelled as the TypeError its
iteration or element subscripts raise), then the total line is printed.
The header print precedes the `data['items']` subscript, so it is in the
trace of every branch. -/
def report (data : Json) : List Event × Except PyError Unit :=
  match data.getKey "items" with
  | .missingKey => ([.printLine "Custom collections:"], .error (.keyError "items"))
  | .notSubscriptable => ([.printLine "Custom collections:"], .error .typeError)
  | .found (.arr items) =>
    match (printItems items).2 with
    | .error e => (.printLine "Custom collections:" :: (printItems items).1, .error e)
    | .ok _ =>
      match countCustom items with
      | .error e => (.printLine "Custom collections:" :: (printItems items).1, .error e)
      | .ok n =>
        (.printLine "Custom collections:" :: (printItems items).1
          ++ [.printLine ("\nTotal: " ++ toString n ++ " custom collections")], .ok ())
  | .found _ => ([.printLine "Custom collections:"], .error .typeError)

/-- The whole script, lines 6-23: load the token, issue the GET (the
request goes on the wire before any network failure is observed), parse
the body, report. Status codes are never inspected. -/
def listCollections (w : World) : List Event × Except PyError Unit :=
  match (loadToken w.tokenFile).2 with
  | .error e => ((loadToken w.tokenFile).1, .error e)
  | .ok token =>
    match w.net with
    | .netFail =>
      ((loadToken w.tokenFile).1 ++ [.httpGet COLLECTIONS_URL token], .error .networkError)
    | .response _ none =>
      ((loadToken w.tokenFile).1 ++ [.httpGet COLLECTIONS_URL token], .error .jsonDecodeError)
    | .response _ (some data) =>
      ((loadToken w.tokenFile).1 ++ [.httpGet COLLECTIONS_URL token] ++ (report data).1,
       (report data).2)

/-- Everything the run wrote to standard output (each `print` appends a
newline). -/
def stdout : List Event → String
  | [] => ""
  | .printLine s :: rest => s ++ "\n" ++ stdout rest
  | _ :: rest => stdout rest

/-- The HTTP requests of a trace: (url, Authorization header) pairs. -/
def httpRequests : List Event → List (String × String)
  | [] => []
  | .httpGet url auth :: rest => (url, auth) :: httpRequests rest
  | _ :: rest => httpRequests rest

/-- A well-formed collection record (string `name`, string `id`) as JSON. -/
def recordJson (c : String × String) : Json :=
  .obj [("name", .str c.1), ("id", .str c.2)]

/-- A world in which the token file reads `tok` and the server answers
with a well-formed envelope whose items are the given records. -/
def okWorld (tok : String) (items : List (String × String)) : World :=
  ⟨.ok tok, .response 200 (some (.obj [("items", .arr (items.map recordJson))]))⟩

/-- The records the script treats as custom: name not starting with `_`. -/
def customs (items : List (String × String)) : List (String × String) :=
  items.filter fun c => !startsWithUnderscore c.1

/-- The printed line of one record. -/
def itemLine (c : String × String) : String :=
  "  " ++ c.1 ++ ": " ++ c.2

/-- The print events of the per-record lines of a run on well-formed records. -/
def lineEvents (items : List (String × String)) : List Event :=
  (customs items).map fun c => Event.printLine (itemLine c)

lemma recordJson_name (c : String × String) : (recordJson c).getKey "name" = .found (.str c.1) :=
  rfl

lemma recordJson_id (c : String × String) : (recordJson c).getKey "id" = .found (.str c.2) :=
  rfl

lemma printItems_map_recordJson (items : List (String × String)) :
    printItems (items.map recordJson) = (lineEvents items, .ok ()) := by
  induction items with
  | nil => rfl
  | cons c rest ih =>
    cases h : startsWithUnderscore c.1 with
    | true =>
      simp [printItems, recordJson_name, h, ih, lineEvents, customs, List.filter_cons]
    | false =>
      simp [printItems, recordJson_name, recordJson_id, h, ih, lineEvents, customs,
        List.filter_cons, itemLine, pyStr]

lemma countCustom_map_recordJson (items : List (String × String)) :
    countCustom (items.map recordJson) = .ok (customs items).length := by
  induction items with
  | nil => rfl
  | cons c rest ih =>
    cases h : startsWithUnderscore c.1 with
    | true => simp [countCustom, recordJson_name, h, ih, customs, List.filter_cons, Except.map]
    | false => simp [countCustom, recordJson_name, h, ih, customs, List.filter_cons, Except.map]

lemma report_okEnvelope (items : List (String × String)) :
    report (.obj [("items", .arr (items.map recordJson))]) =
      (.printLine "Custom collections:" :: lineEvents items
        ++ [.printLine ("\nTotal: " ++ toString (customs items).length ++ " custom collections")],
       .ok ()) := by
  simp [report, Json.getKey, printItems_map_recordJson, countCustom_map_recordJson]

/-- One well-formed run, in full: the four initial events, then one line
per custom record, then the total line; the run succeeds. -/
lemma listCollections_okWorld (tok : String) (items : List (String × String)) :
    listCollections (okWorld tok items) =
      ([.fileOpen TOKEN_PATH, .fileClose TOKEN_PATH, .httpGet COLLECTIONS_URL (pyStrip tok),
        .printLine "Custom collections:"]
        ++ lineEvents items
        ++ [.printLine ("\nTotal: " ++ toString (customs items).length ++ " custom collections")],
       .ok ()) := by
  simp [listCollections, okWorld, loadToken, report_okEnvelope]

lemma stdout_append (a b : List Event) : stdout (a ++ b) = stdout a ++ stdout b := by
  induction a with
  | nil => simp [stdout]
  | cons e rest ih => cases e <;> simp [stdout, ih, String.append_assoc]

lemma httpRequests_append (a b : List Event) :
    httpRequests (a ++ b) = httpRequests a ++ httpRequests b := by
  induction a with
  | nil => simp [httpRequests]
  | cons e rest ih => cases e <;> simp [httpRequests, ih]

lemma httpRequests_printItems (cs : List Json) : httpRequests (printItems cs).1 = [] := by
  induction cs with
  | nil => rfl
  | cons c rest ih =>
    unfold printItems
    rcases h : c.getKey "name" with v | _ | _
    · rcases v with _ | b | n | s | elems | fields <;> simp only [h] <;>
        try simp [httpRequests]
      cases h2 : startsWithUnderscore s with
      | false => rcases h3 : c.getKey "id" with w | _ | _ <;> simp [h2, h3, httpRequests, ih]
      | true => simp [h2, ih]
    · simp [h, httpRequests]
    · simp [h, httpRequests]

lemma httpRequests_report (data : Json) : httpRequests (report data).1 = [] := by
  unfold report
  rcases h : data.getKey "items" with v | _ | _
  · rcases v with _ | b | n | s | elems | fields <;> simp only [h] <;>
      try simp [httpRequests]
    rcases h2 : (printItems elems).2 with e | u
    · simp [h2, httpRequests, httpRequests_printItems]
    · rcases h3 : countCustom elems with e | n2 <;>
        simp [h2, h3, httpRequests, httpRequests_append, httpRequests_printItems]
  · simp [h, httpRequests]
  · simp [h, httpRequests]

/-- The report block prints the header first, whatever the body holds. -/
lemma report_fst_cons (data : Json) :
    ∃ t, (report data).1 = Event.printLine "Custom collections:" :: t := by
  unfold report
  rcases h : data.getKey "items" with v | _ | _
  · rcases v with _ | b | n | s | elems | fields <;> simp only [h] <;>
      try exact ⟨_, rfl⟩
    rcases h2 : (printItems elems).2 with e | u
    · simp only [h2]
      exact ⟨_, rfl⟩
    · rcases h3 : countCustom elems with e | n2 <;> simp only [h2, h3] <;> exact ⟨_, rfl⟩
  · simp only [h]
    exact ⟨_, rfl⟩
  · simp only [h]
    exact ⟨_, rfl⟩

/-- Once the token file was read successfully, the run issues exactly one
request: to the fixed URL, with the stripped file content as the header. -/
lemma httpRequests_okToken (content : String) (net : NetOutcome) :
    httpRequests (listCollections ⟨.ok content, net⟩).1 =
      [(COLLECTIONS_URL, pyStrip content)] := by
  cases net with
  | netFail => simp [listCollections, loadToken, httpRequests]
  | response status body =>
    cases body with
    | none => simp [listCollections, loadToken, httpRequests]
    | some data =>
      simp [listCollections, loadToken, httpRequests_append, httpRequests, httpRequests_report]

/-- A run on a valid JSON object body lacking `items`: the header was
printed before the failing subscript. -/
lemma missing_items_run (tok : String) (status : Nat) (fields : List (String × Json))
    (h : fields.lookup "items" = none) :
    listCollections ⟨.ok tok, .response status (some (.obj fields))⟩ =
      ([.fileOpen TOKEN_PATH, .fileClose TOKEN_PATH, .httpGet COLLECTIONS_URL (pyStrip tok),
        .printLine "Custom collections:"], .error (.keyError "items")) := by
  have hrep : report (.obj fields) =
      ([.printLine "Custom collections:"], .error (.keyError "items")) := by
    simp [report, Json.getKey, h]
  simp [listCollections, loadToken, hrep]

/-- C1 counterexample: on a 404 response with the valid JSON error body
`\x7b"message": "fail"\x7d` (no `items`), the run does abort with the
missing-field KeyError, but standard output is not empty: the header line
was already printed. -/
theorem scenarioD_prints_header_cex :
    (listCollections ⟨.ok "t", .response 404 (some (.obj [("message", .str "fail")]))⟩).2
        = .error (.keyError "items")
      ∧ stdout (listCollections
          ⟨.ok "t", .response 404 (some (.obj [("message", .str "fail")]))⟩).1 ≠ "" := by
  constructor
  · rfl
  · decide

/-- C1 (amended): for every response whose body is a valid JSON object
lacking the `items` field, the run aborts with the missing-field KeyError,
and the only text on standard output is the already-printed header line
"Custom collections:\n". -/
theorem missing_items_aborts_after_header (tok : String) (status : Nat)
    (fields : List (String × Json)) (h : fields.lookup "items" = none) :
    (listCollections ⟨.ok tok, .response status (some (.obj fields))⟩).2
        = .error (.keyError "items")
      ∧ stdout (listCollections ⟨.ok tok, .response status (some (.obj fields))⟩).1
        = "Custom collections:\n" := by
  rw [missing_items_run tok status fields h]
  exact ⟨rfl, rfl⟩

/-- C1 witness: the amended statement at a concrete 500 response. -/
theorem missing_items_aborts_after_header_witness :
    (listCollections ⟨.ok "t", .response 500 (some (.obj [("message", Json.str "x")]))⟩).2
        = .error (.keyError "items")
      ∧ stdout (listCollections
          ⟨.ok "t", .response 500 (some (.obj [("message", Json.str "x")]))⟩).1
        = "Custom collections:\n" :=
  missing_items_aborts_after_header "t" 500 [("message", Json.str "x")] rfl

/-- C2: whenever the response body is a valid JSON object whose `items`
field is the empty list, the run succeeds and its complete standard output
is exactly "Custom collections:\n\nTotal: 0 custom collections\n". -/
theorem empty_items_exact_output (tok : String) (status : Nat)
    (fields : List (String × Json)) (h : fields.lookup "items" = some (.arr [])) :
    stdout (listCollections ⟨.ok tok, .response status (some (.obj fields))⟩).1
        = "Custom collections:\n\nTotal: 0 custom collections\n"
      ∧ (listCollections ⟨.ok tok, .response status (some (.obj fields))⟩).2 = .ok () := by
  have hrep : report (.obj fields) =
      ([.printLine "Custom collections:",
        .printLine "\nTotal: 0 custom collections"], .ok ()) := by
    simp [report, Json.getKey, h, printItems, countCustom]
    rfl
  have hrun : listCollections ⟨.ok tok, .response status (some (.obj fields))⟩ =
      ([.fileOpen TOKEN_PATH, .fileClose TOKEN_PATH, .httpGet COLLECTIONS_URL (pyStrip tok),
        .printLine "Custom collections:", .printLine "\nTotal: 0 custom collections"],
       .ok ()) := by
    simp [listCollections, loadToken, hrep]
  rw [hrun]
  exact ⟨rfl, rfl⟩

/-- C2 witness: the empty-items output at a concrete world. -/
theorem empty_items_exact_output_witness :
    stdout (listCollections ⟨.ok "t", .response 200 (some (.obj [("items", Json.arr [])]))⟩).1
        = "Custom collections:\n\nTotal: 0 custom collections\n"
      ∧ (listCollections ⟨.ok "t", .response 200 (some (.obj [("items", Json.arr [])]))⟩).2
        = .ok () :=
  empty_items_exact_output "t" 200 [("items", Json.arr [])] rfl

/-- C3: a record whose name starts with `_` contributes nothing to the
run: the whole run (trace and result) is the same as if the record were
absent — in particular it is never printed and never counted. -/
theorem underscore_record_invisible (tok : String) (pre suf : List (String × String))
    (c : String × String) (h : startsWithUnderscore c.1 = true) :
    listCollections (okWorld tok (pre ++ c :: suf))
      = listCollections (okWorld tok (pre ++ suf)) := by
  rw [listCollections_okWorld, listCollections_okWorld]
  have hc : customs (pre ++ c :: suf) = customs (pre ++ suf) := by
    simp [customs, List.filter_append, List.filter_cons, h]
  rw [lineEvents, lineEvents, hc]

/-- C3 witness: Scenario B. The run on
`[("_superusers","sys1"), ("posts","abc123")]` equals the run on
`[("posts","abc123")]` alone. -/
theorem underscore_record_invisible_witness :
    listCollections (okWorld "t" ([] ++ ("_superusers", "sys1") :: [("posts", "abc123")]))
      = listCollections (okWorld "t" ([] ++ [("posts", "abc123")])) :=
  underscore_record_invisible "t" [] [("posts", "abc123")] ("_superusers", "sys1") (by decide)

/-- C4: on any well-formed items sequence, the count interpolated into the
Total line is the length of the list of per-record printed lines. -/
theorem total_count_equals_line_count (tok : String) (items : List (String × String)) :
    (listCollections (okWorld tok items)).1 =
      [.fileOpen TOKEN_PATH, .fileClose TOKEN_PATH, .httpGet COLLECTIONS_URL (pyStrip tok),
       .printLine "Custom collections:"]
      ++ lineEvents items
      ++ [.printLine ("\nTotal: " ++ toString (lineEvents items).length
            ++ " custom collections")] := by
  have h := listCollections_okWorld tok items
  have hlen : (lineEvents items).length = (customs items).length := by
    simp [lineEvents]
  rw [hlen]
  exact congrArg Prod.fst h

/-- C5: the run prints exactly the lines of the non-`_` records, in the
relative order in which those records occur in `items` (the line list is a
sublist of the lines of all records, order untouched). -/
theorem lines_follow_items_order (tok : String) (items : List (String × String)) :
    (listCollections (okWorld tok items)).1 =
      [.fileOpen TOKEN_PATH, .fileClose TOKEN_PATH, .httpGet COLLECTIONS_URL (pyStrip tok),
       .printLine "Custom collections:"]
      ++ (customs items).map (fun c => Event.printLine (itemLine c))
      ++ [.printLine ("\nTotal: " ++ toString (customs items).length ++ " custom collections")]
      ∧ ((customs items).map fun c => Event.printLine (itemLine c)).Sublist
          (items.map fun c => Event.printLine (itemLine c)) := by
  constructor
  · exact congrArg Prod.fst (listCollections_okWorld tok items)
  · exact (List.filter_sublist items).map _

/-- C6: when the token file is missing or unreadable, the run aborts with
the file-access failure and its trace holds no HTTP request at all. -/
theorem token_failure_aborts_before_request (w : World)
    (h : w.tokenFile = .openFail ∨ w.tokenFile = .readFail) :
    (listCollections w).2 = .error .fileAccessError
      ∧ httpRequests (listCollections w).1 = [] := by
  rcases h with h | h <;> simp [listCollections, loadToken, h, httpRequests]

/-- C6 witness: the absent token file. -/
theorem token_failure_aborts_before_request_witness :
    (listCollections ⟨.openFail, .netFail⟩).2 = .error .fileAccessError
      ∧ httpRequests (listCollections ⟨.openFail, .netFail⟩).1 = [] :=
  token_failure_aborts_before_request ⟨.openFail, .netFail⟩ (Or.inl rfl)

/-- C7: whatever the network does, a run that read token content issues
exactly one GET: to the fixed collections URL — whose query string is
exactly perPage=100 — with the Authorization header equal to the stripped
file content itself (no Bearer prefix or any other change). -/
theorem single_get_fixed_url_raw_token (content : String) (net : NetOutcome) :
    httpRequests (listCollections ⟨.ok content, net⟩).1
        = [(COLLECTIONS_URL, pyStrip content)]
      ∧ COLLECTIONS_URL = "http://localhost:8090/api/collections" ++ "?perPage=100" :=
  ⟨httpRequests_okToken content net, rfl⟩

/-- C8: the credential sent is the token file's entire text with
surrounding whitespace stripped, and the file handle is closed on every
run that opened it — also when reading failed. -/
theorem token_stripped_and_handle_closed (w : World) :
    (Event.fileOpen TOKEN_PATH ∈ (listCollections w).1 →
      Event.fileClose TOKEN_PATH ∈ (listCollections w).1)
      ∧ ∀ content, w.tokenFile = .ok content →
          httpRequests (listCollections w).1 = [(COLLECTIONS_URL, pyStrip content)] := by
  obtain ⟨tf, net⟩ := w
  constructor
  · cases tf with
    | openFail => simp [listCollections, loadToken]
    | readFail => simp [listCollections, loadToken]
    | ok content =>
      intro _
      obtain ⟨t, ht⟩ :
          ∃ t, (listCollections ⟨.ok content, net⟩).1 =
            Event.fileOpen TOKEN_PATH :: Event.fileClose TOKEN_PATH :: t := by
        cases net with
        | netFail => exact ⟨_, rfl⟩
        | response status body =>
          cases body with
          | none => exact ⟨_, rfl⟩
          | some data => exact ⟨_, rfl⟩
      rw [ht]
      simp
  · intro content h
    have htf : tf = FileOutcome.ok content := h
    subst htf
    exact httpRequests_okToken content net

/-- C8 witness: on the content " tok \n" the handle is closed and the
header sent is the stripped text "tok". -/
theorem token_stripped_and_handle_closed_witness :
    Event.fileClose TOKEN_PATH ∈ (listCollections ⟨.ok " tok \n", .netFail⟩).1
      ∧ httpRequests (listCollections ⟨.ok " tok \n", .netFail⟩).1
        = [(COLLECTIONS_URL, "tok")] := by
  refine ⟨(token_stripped_and_handle_closed ⟨.ok " tok \n", .netFail⟩).1 ?_, ?_⟩
  · decide
  · have h := (token_stripped_and_handle_closed ⟨.ok " tok \n", .netFail⟩).2 " tok \n" rfl
    rw [h]
    decide

/-- C9: on every parsed response body, the first four trace entries are
fixed — the header print is the fourth, before `data['items']` is ever
subscripted; so when the body lacks `items`, the aborting run has already
written the header line, and that line is its entire standard output. -/
theorem header_precedes_items_access (tok : String) (status : Nat) (j : Json) :
    (listCollections ⟨.ok tok, .response status (some j)⟩).1.take 4 =
        [Event.fileOpen TOKEN_PATH, Event.fileClose TOKEN_PATH,
         Event.httpGet COLLECTIONS_URL (pyStrip tok), Event.printLine "Custom collections:"]
      ∧ (j.getKey "items" = .missingKey →
          stdout (listCollections ⟨.ok tok, .response status (some j)⟩).1
            = "Custom collections:\n") := by
  constructor
  · obtain ⟨t, ht⟩ := report_fst_cons j
    have hrun : (listCollections ⟨.ok tok, .response status (some j)⟩).1 =
        [Event.fileOpen TOKEN_PATH, Event.fileClose TOKEN_PATH,
         Event.httpGet COLLECTIONS_URL (pyStrip tok)] ++ (report j).1 := by
      simp [listCollections, loadToken]
    rw [hrun, ht]
    rfl
  · intro h
    have hrep : report j = ([.printLine "Custom collections:"], .error (.keyError "items")) := by
      simp [report, h]
    simp [listCollections, loadToken, hrep, stdout]

/-- C9 witness: a 503 response whose body is the empty JSON object. -/
theorem header_precedes_items_access_witness :
    (listCollections ⟨.ok "t", .response 503 (some (.obj []))⟩).1.take 4 =
        [Event.fileOpen TOKEN_PATH, Event.fileClose TOKEN_PATH,
         Event.httpGet COLLECTIONS_URL (pyStrip "t"), Event.printLine "Custom collections:"]
      ∧ stdout (listCollections ⟨.ok "t", .response 503 (some (.obj []))⟩).1
        = "Custom collections:\n" :=
  ⟨(header_precedes_items_access "t" 503 (.obj [])).1,
   (header_precedes_items_access "t" 503 (.obj [])).2 rfl⟩

/-- C10: a record whose name is the empty string is treated as custom:
the run prints the line "  : <id>" for it, in place, and it adds one to
the printed total. -/
theorem empty_name_treated_as_custom (tok : String) (pre suf : List (String × String))
    (i : String) :
    (listCollections (okWorld tok (pre ++ ("", i) :: suf))).1 =
      [.fileOpen TOKEN_PATH, .fileClose TOKEN_PATH, .httpGet COLLECTIONS_URL (pyStrip tok),
       .printLine "Custom collections:"]
      ++ lineEvents pre ++ [.printLine ("  : " ++ i)] ++ lineEvents suf
      ++ [.printLine ("\nTotal: "
            ++ toString ((customs pre).length + 1 + (customs suf).length)
            ++ " custom collections")] := by
  have hc : customs (pre ++ ("", i) :: suf) = customs pre ++ ("", i) :: customs suf := by
    simp [customs, List.filter_append, List.filter_cons, startsWithUnderscore]
  have hlen : (customs (pre ++ ("", i) :: suf)).length
      = (customs pre).length + 1 + (customs suf).length := by
    rw [hc]
    simp
    omega
  have h := congrArg Prod.fst (listCollections_okWorld tok (pre ++ ("", i) :: suf))
  rw [h, hlen, lineEvents, hc]
  simp [lineEvents, itemLine]

end ListCollections
